import Mathlib

/-!
Shallow embedding of the schedulebot monitoring client
(frontend/src/components/MonitoringDashboard.tsx,
frontend/src/components/SchedulingInterface.tsx,
frontend/src/services/api.ts) and proofs of the specification claims.

Records arriving from the backend are untyped JSON at runtime, so inbound
records are modelled as a `Value` type; the TypeScript type annotations are
erased at runtime and enforce nothing.
-/

/-- Runtime JSON-like value, the shape of records arriving over the network.
`obj` keeps fields as an association list (first binding wins on lookup,
as parsed JSON objects have unique keys). -/
inductive Value where
  | str (s : String)
  | num (n : Int)
  | bool (b : Bool)
  | null
  | arr (vs : List Value)
  | obj (fields : List (String × Value))

/-- JavaScript property access `v[name]`: only objects yield named fields;
arrays, primitives and null yield `undefined` (modelled as `none`). -/
def getField (v : Value) (name : String) : Option Value :=
  match v with
  | .obj fs => fs.lookup name
  | _ => none

/-- Type guard `isValidAttentionFlag` from MonitoringDashboard.tsx.
The source first requires `typeof flag === 'object' && flag !== null`
(true exactly for objects and arrays, since `typeof [] === 'object'`),
then checks the six field accesses; each `typeof flagObj.f === '...'`
test on a missing field sees `undefined` and fails. -/
def isValidAttentionFlag (flag : Value) : Bool :=
  match flag with
  | .obj _ | .arr _ =>
    (match getField flag "id" with | some (.str _) => true | _ => false) &&
    (match getField flag "conversation_id" with | some (.str _) => true | _ => false) &&
    (match getField flag "message" with | some (.str _) => true | _ => false) &&
    (match getField flag "severity" with
     | some (.str s) => (["low", "medium", "high"] : List String).contains s
     | _ => false) &&
    (match getField flag "created_at" with | some (.str _) => true | _ => false) &&
    (match getField flag "resolved" with | some (.bool _) => true | _ => false)
  | _ => false

/-- The flag filter applied inside `fetchData`
(`flags.filter(isValidAttentionFlag)`, MonitoringDashboard.tsx line 68). -/
def validateAttentionFlags (records : List Value) : List Value :=
  records.filter isValidAttentionFlag

/-- Spec-side admission predicate, written from the spec's words (§3):
a flag is admitted iff all six fields are present with the correct
primitive types and `severity` is one of the three enumerated values. -/
def specAdmitsAttentionFlag (v : Value) : Bool :=
  (match getField v "id" with | some (.str _) => true | _ => false) &&
  (match getField v "conversation_id" with | some (.str _) => true | _ => false) &&
  (match getField v "message" with | some (.str _) => true | _ => false) &&
  (match getField v "severity" with
   | some (.str s) => s == "low" || s == "medium" || s == "high"
   | _ => false) &&
  (match getField v "created_at" with | some (.str _) => true | _ => false) &&
  (match getField v "resolved" with | some (.bool _) => true | _ => false)

theorem contains_severity (s : String) :
    (["low", "medium", "high"] : List String).contains s
      = (s == "low" || s == "medium" || s == "high") := by
  cases h1 : (s == "low") <;> cases h2 : (s == "medium") <;> cases h3 : (s == "high") <;>
    simp [List.contains, List.elem, h1, h2, h3]

theorem isValid_eq_specAdmits (v : Value) :
    isValidAttentionFlag v = specAdmitsAttentionFlag v := by
  cases v with
  | obj fs =>
      simp only [isValidAttentionFlag, specAdmitsAttentionFlag, contains_severity]
  | arr vs =>
      simp only [isValidAttentionFlag, specAdmitsAttentionFlag, getField,
        Bool.false_and, Bool.and_false]
  | str s => rfl
  | num n => rfl
  | bool b => rfl
  | null => rfl

/-- C2: For every input sequence of unknown records, validating them as
AttentionFlags returns exactly the subsequence of records for which all six
fields are present with the correct primitive types and severity is one of
'low', 'medium', 'high', preserving the original order (the result is a
sublist of the input). The validator is a total function, so it never
throws for any input. -/
theorem validate_attention_flags_matches_spec (records : List Value) :
    validateAttentionFlags records = records.filter specAdmitsAttentionFlag ∧
    (validateAttentionFlags records).Sublist records := by
  constructor
  · unfold validateAttentionFlags
    exact List.filter_congr fun v _ => isValid_eq_specAdmits v
  · exact List.filter_sublist records

/-! ## Data model (frontend/src/types/api.ts) -/

structure Interviewee where
  id : String
  name : String
  number : String
  email : String
  jd_title : String
  status : String

/-- `ActiveConversation` from types/api.ts. The optional `attention_flags`
field is typed `AttentionFlag[]` in TypeScript, but that annotation is
erased at runtime and the dashboard never validates these nested records,
so they are kept as raw `Value`s here. -/
structure ActiveConversation where
  id : String
  interviewer_name : String
  interviewer_email : String
  interviewer_number : String
  interviewees : List Interviewee
  status : String
  last_activity : String
  completed_at : Option String
  attention_flags : Option (List Value)

structure ScheduledInterview where
  id : String
  title : String
  interviewer_name : String
  interviewer_email : String
  interviewer_number : String
  interviewee_name : String
  interviewee_email : String
  interviewee_number : String
  scheduled_time : String
  status : String

/-- A failed network exchange (axios rejection): transport error or
non-2xx backend response, carrying a message. -/
structure ApiError where
  message : String

/-! ## ResourceClient (frontend/src/services/api.ts)

Each function is modelled over the outcome `net` of its underlying HTTP
exchange (`api.get`/`api.delete`/`api.post` on the shared axios instance);
the Lean function is the try/catch logic wrapped around that exchange. -/

/-- `getActiveConversations`: on any failure, returns `[]` instead of
rethrowing. -/
def getActiveConversations (net : Except ApiError (List ActiveConversation)) :
    List ActiveConversation :=
  match net with
  | .ok v => v
  | .error _ => []

/-- `getCompletedConversations`: on any failure, returns `[]`. -/
def getCompletedConversations (net : Except ApiError (List ActiveConversation)) :
    List ActiveConversation :=
  match net with
  | .ok v => v
  | .error _ => []

/-- `getScheduledInterviews`: on any failure, returns `[]`. -/
def getScheduledInterviews (net : Except ApiError (List ScheduledInterview)) :
    List ScheduledInterview :=
  match net with
  | .ok v => v
  | .error _ => []

/-- `getAttentionFlags`: on any failure, returns `[]`. The success payload
is raw backend JSON, hence `List Value`. -/
def getAttentionFlags (net : Except ApiError (List Value)) : List Value :=
  match net with
  | .ok v => v
  | .error _ => []

/-- `deleteConversation`: logs and rethrows the error unchanged. -/
def deleteConversation (net : Except ApiError Unit) : Except ApiError Unit :=
  match net with
  | .ok _ => .ok ()
  | .error e => .error e

/-- `resolveAttentionFlag`: logs and rethrows the error unchanged. -/
def resolveAttentionFlag (net : Except ApiError Unit) : Except ApiError Unit :=
  match net with
  | .ok _ => .ok ()
  | .error e => .error e

/-! ## MonitoringDashboard state and handlers -/

/-- `deleteStatus` values: 'idle' | 'deleting' | 'success' | 'error'. -/
inductive DeleteStatus where
  | idle
  | deleting
  | success
  | error
deriving DecidableEq

/-- `resolveStatus` values: 'idle' | 'resolving' | 'success' | 'error'. -/
inductive ResolveStatus where
  | idle
  | resolving
  | success
  | error
deriving DecidableEq

/-- The React state of `MonitoringDashboard`, plus an `alerts` trace for
`alert(...)` calls and a `refreshCalls` counter for out-of-band
`fetchData()` invocations made by the handlers. The two status maps model
JS objects: a missing key reads as `undefined` (`none`). -/
structure DashboardState where
  activeConversations : List ActiveConversation
  completedConversations : List ActiveConversation
  scheduledInterviews : List ScheduledInterview
  attentionFlags : List Value
  isLoading : Bool
  error : Option String
  deleteStatus : String → Option DeleteStatus
  resolveStatus : String → Option ResolveStatus
  alerts : List String
  refreshCalls : Nat

/-- JS object spread `{ ...prev, [key]: v }`: update one key, keep the rest. -/
def mapSet {σ : Type} (m : String → Option σ) (key : String) (v : σ) :
    String → Option σ :=
  fun x => if x = key then some v else m x

/-- The `.catch(() => [])` wrapper that `fetchData` puts around each of the
four list promises. -/
def catchToEmpty {α : Type} (r : Except ApiError (List α)) : List α :=
  match r with
  | .ok v => v
  | .error _ => []

/-- `fetchData` (MonitoringDashboard.tsx lines 55-76), for one refresh cycle
whose four awaited promises resolved or rejected as `ra, rc, rf, rs`.
Each is independently recovered to `[]`; only the standalone flag list is
passed through the type-guard filter; the outer catch branch (which would
set `error`) is not reachable once every branch of the `Promise.all` is
handled, so the published snapshot always has `error = none` and
`isLoading = false`. -/
def fetchData (ra rc : Except ApiError (List ActiveConversation))
    (rf : Except ApiError (List Value))
    (rs : Except ApiError (List ScheduledInterview))
    (st : DashboardState) : DashboardState :=
  { st with
    activeConversations := catchToEmpty ra
    completedConversations := catchToEmpty rc
    attentionFlags := validateAttentionFlags (catchToEmpty rf)
    scheduledInterviews := catchToEmpty rs
    error := none
    isLoading := false }

/-- `handleDelete` (MonitoringDashboard.tsx lines 78-90): mark the id
`deleting`, await `deleteConversation`; on success filter the id out of
both conversation collections and mark `success`; on failure mark `error`
and alert the operator. `net` is the outcome of the underlying HTTP
DELETE. -/
def handleDelete (conversationId : String) (net : Except ApiError Unit)
    (st : DashboardState) : DashboardState :=
  let st1 := { st with deleteStatus := mapSet st.deleteStatus conversationId .deleting }
  match deleteConversation net with
  | .ok _ =>
    { st1 with
      activeConversations :=
        st1.activeConversations.filter (fun conv => conv.id != conversationId)
      completedConversations :=
        st1.completedConversations.filter (fun conv => conv.id != conversationId)
      deleteStatus := mapSet st1.deleteStatus conversationId .success }
  | .error _ =>
    { st1 with
      deleteStatus := mapSet st1.deleteStatus conversationId .error
      alerts := st1.alerts ++ ["Failed to delete conversation. Please try again."] }

/-- `handleResolveFlag` (MonitoringDashboard.tsx lines 92-104): mark the id
`resolving`, await `resolveAttentionFlag`; on success mark `success` and
trigger one out-of-band `fetchData()`; on failure mark `error` and alert. -/
def handleResolveFlag (flagId : String) (net : Except ApiError Unit)
    (st : DashboardState) : DashboardState :=
  let st1 := { st with resolveStatus := mapSet st.resolveStatus flagId .resolving }
  match resolveAttentionFlag net with
  | .ok _ =>
    { st1 with
      resolveStatus := mapSet st1.resolveStatus flagId .success
      refreshCalls := st1.refreshCalls + 1 }
  | .error _ =>
    { st1 with
      resolveStatus := mapSet st1.resolveStatus flagId .error
      alerts := st1.alerts ++ ["Failed to resolve attention flag. Please try again."] }

/-- Initial dashboard state (the `useState` initialisers). -/
def initialDashboardState : DashboardState :=
  { activeConversations := []
    completedConversations := []
    scheduledInterviews := []
    attentionFlags := []
    isLoading := true
    error := none
    deleteStatus := fun _ => none
    resolveStatus := fun _ => none
    alerts := []
    refreshCalls := 0 }

/-- Whether a promise outcome was a rejection. -/
def isFailed {α : Type} (r : Except ApiError α) : Bool :=
  match r with
  | .error _ => true
  | .ok _ => false

/-- A well-formed attention-flag record, used as concrete demo input. -/
def demoFlagOk : Value :=
  Value.obj [("id", .str "f1"), ("conversation_id", .str "c1"), ("message", .str "m"),
             ("severity", .str "high"), ("created_at", .str "t"), ("resolved", .bool true)]

/-- C1 counterexample: a refresh cycle in which exactly one of the four
calls (the active-conversations one) rejects, while the attention-flags
call succeeds with a non-conforming record. The claim says each successful
collection appears in the snapshot exactly as returned, but the published
flag collection is the validated (filtered) list, not the returned one. -/
theorem cex_refresh_snapshot_not_exact :
    ((isFailed (Except.error (α := List ActiveConversation) (ApiError.mk "down"))).toNat +
      (isFailed (Except.ok (ε := ApiError) ([] : List ActiveConversation))).toNat +
      (isFailed (Except.ok (ε := ApiError) [Value.num 3])).toNat +
      (isFailed (Except.ok (ε := ApiError) ([] : List ScheduledInterview))).toNat = 1) ∧
    (fetchData (.error (ApiError.mk "down")) (.ok []) (.ok [Value.num 3]) (.ok [])
        initialDashboardState).attentionFlags ≠ [Value.num 3] := by
  refine ⟨rfl, ?_⟩
  simp [fetchData, catchToEmpty, validateAttentionFlags, isValidAttentionFlag]

/-- C1 (amended): in a refresh cycle where exactly one of the four calls
rejects, each successful collection is published exactly as returned —
except the attention flags, which are published after passing the
validation filter — and the failing collection is replaced by the empty
sequence. -/
theorem refresh_single_failure_isolated
    (ra rc : Except ApiError (List ActiveConversation))
    (rf : Except ApiError (List Value))
    (rs : Except ApiError (List ScheduledInterview))
    (st : DashboardState)
    (h : (isFailed ra).toNat + (isFailed rc).toNat +
         (isFailed rf).toNat + (isFailed rs).toNat = 1) :
    (∀ xs, ra = .ok xs → (fetchData ra rc rf rs st).activeConversations = xs) ∧
    (∀ e, ra = .error e → (fetchData ra rc rf rs st).activeConversations = []) ∧
    (∀ xs, rc = .ok xs → (fetchData ra rc rf rs st).completedConversations = xs) ∧
    (∀ e, rc = .error e → (fetchData ra rc rf rs st).completedConversations = []) ∧
    (∀ xs, rf = .ok xs →
        (fetchData ra rc rf rs st).attentionFlags = validateAttentionFlags xs) ∧
    (∀ e, rf = .error e → (fetchData ra rc rf rs st).attentionFlags = []) ∧
    (∀ xs, rs = .ok xs → (fetchData ra rc rf rs st).scheduledInterviews = xs) ∧
    (∀ e, rs = .error e → (fetchData ra rc rf rs st).scheduledInterviews = []) := by
  refine ⟨?_, ?_, ?_, ?_, ?_, ?_, ?_, ?_⟩ <;> intro x hx <;> subst hx <;>
    simp [fetchData, catchToEmpty, validateAttentionFlags]

/-- C1 witness: concrete cycle with one rejection (active conversations),
checked through `refresh_single_failure_isolated`. -/
theorem refresh_single_failure_isolated_witness :
    ((isFailed (Except.error (α := List ActiveConversation) (ApiError.mk "down"))).toNat +
      (isFailed (Except.ok (ε := ApiError) ([] : List ActiveConversation))).toNat +
      (isFailed (Except.ok (ε := ApiError) [demoFlagOk])).toNat +
      (isFailed (Except.ok (ε := ApiError) ([] : List ScheduledInterview))).toNat = 1) ∧
    (fetchData (.error (ApiError.mk "down")) (.ok []) (.ok [demoFlagOk]) (.ok [])
        initialDashboardState).activeConversations = [] ∧
    (fetchData (.error (ApiError.mk "down")) (.ok []) (.ok [demoFlagOk]) (.ok [])
        initialDashboardState).attentionFlags = validateAttentionFlags [demoFlagOk] := by
  have h := refresh_single_failure_isolated (.error (ApiError.mk "down")) (.ok [])
    (.ok [demoFlagOk]) (.ok []) initialDashboardState rfl
  exact ⟨rfl, h.2.1 (ApiError.mk "down") rfl, h.2.2.2.2.1 [demoFlagOk] rfl⟩

/-- A conversation record used as concrete demo input. -/
def demoConv : ActiveConversation :=
  { id := "c1", interviewer_name := "A", interviewer_email := "a@x.com",
    interviewer_number := "1", interviewees := [], status := "active",
    last_activity := "t", completed_at := none, attention_flags := none }

/-- Demo dashboard state holding the same conversation id in both the
active and the completed collections. -/
def demoDashState : DashboardState :=
  { initialDashboardState with
    activeConversations := [demoConv]
    completedConversations := [demoConv] }

/-- C5: a delete whose network call succeeds, on an id present in both
collections, immediately removes every conversation with that id from both
(the handler filters both lists in place), without triggering a refresh. -/
theorem delete_success_removes_from_both (st : DashboardState) (conversationId : String)
    (h : (∃ c ∈ st.activeConversations, c.id = conversationId) ∧
         (∃ c ∈ st.completedConversations, c.id = conversationId)) :
    (∀ c ∈ (handleDelete conversationId (.ok ()) st).activeConversations,
        c.id ≠ conversationId) ∧
    (∀ c ∈ (handleDelete conversationId (.ok ()) st).completedConversations,
        c.id ≠ conversationId) ∧
    (handleDelete conversationId (.ok ()) st).activeConversations =
      st.activeConversations.filter (fun c => c.id != conversationId) ∧
    (handleDelete conversationId (.ok ()) st).completedConversations =
      st.completedConversations.filter (fun c => c.id != conversationId) ∧
    (handleDelete conversationId (.ok ()) st).refreshCalls = st.refreshCalls := by
  refine ⟨?_, ?_, ?_, ?_, ?_⟩ <;>
    simp [handleDelete, deleteConversation, List.mem_filter]

/-- C5 witness: deleting "c1", present in both demo collections. -/
theorem delete_success_removes_from_both_witness :
    ((∃ c ∈ demoDashState.activeConversations, c.id = "c1") ∧
     (∃ c ∈ demoDashState.completedConversations, c.id = "c1")) ∧
    (∀ c ∈ (handleDelete "c1" (.ok ()) demoDashState).activeConversations,
        c.id ≠ "c1") := by
  have hh : (∃ c ∈ demoDashState.activeConversations, c.id = "c1") ∧
      (∃ c ∈ demoDashState.completedConversations, c.id = "c1") :=
    ⟨⟨demoConv, by simp [demoDashState], rfl⟩, ⟨demoConv, by simp [demoDashState], rfl⟩⟩
  exact ⟨hh, (delete_success_removes_from_both demoDashState "c1" hh).1⟩

/-- C6: a delete whose network call fails sets that id's action state to
`error` ('failed'), leaves both conversation collections untouched, alerts
the operator, and `deleteConversation` itself rethrows the failure to its
caller unchanged. -/
theorem delete_failure_preserves_collections (st : DashboardState)
    (conversationId : String) (e : ApiError) :
    (handleDelete conversationId (.error e) st).deleteStatus conversationId =
      some .error ∧
    (handleDelete conversationId (.error e) st).activeConversations =
      st.activeConversations ∧
    (handleDelete conversationId (.error e) st).completedConversations =
      st.completedConversations ∧
    (handleDelete conversationId (.error e) st).alerts =
      st.alerts ++ ["Failed to delete conversation. Please try again."] ∧
    deleteConversation (.error e) = .error e := by
  simp [handleDelete, deleteConversation, mapSet]

/-- C7: each status update touches only its own map entry: a delete
transition for one id never changes any resolve-tracker entry, nor the
delete-tracker entry of a different id; symmetrically for resolve. -/
theorem action_tracker_frame (st : DashboardState)
    (deleteId resolveId otherId : String) (netD netR : Except ApiError Unit) :
    (∀ k, (handleDelete deleteId netD st).resolveStatus k = st.resolveStatus k) ∧
    (otherId ≠ deleteId →
      (handleDelete deleteId netD st).deleteStatus otherId = st.deleteStatus otherId) ∧
    (∀ k, (handleResolveFlag resolveId netR st).deleteStatus k = st.deleteStatus k) ∧
    (otherId ≠ resolveId →
      (handleResolveFlag resolveId netR st).resolveStatus otherId =
        st.resolveStatus otherId) := by
  refine ⟨fun k => ?_, fun h => ?_, fun k => ?_, fun h => ?_⟩ <;>
    cases netD <;> cases netR <;>
    simp [handleDelete, handleResolveFlag, deleteConversation,
      resolveAttentionFlag, mapSet, *]

/-- C7 witness: driving (delete, "c1") to failed leaves both the
delete-tracker entry for "f7" and the whole resolve tracker untouched. -/
theorem action_tracker_frame_witness :
    (("f7" : String) ≠ "c1") ∧
    (handleDelete "c1" (.error (ApiError.mk "boom")) demoDashState).deleteStatus "f7" =
      demoDashState.deleteStatus "f7" ∧
    (handleDelete "c1" (.error (ApiError.mk "boom")) demoDashState).resolveStatus "f7" =
      demoDashState.resolveStatus "f7" := by
  have h := action_tracker_frame demoDashState "c1" "f7" "f7"
    (.error (ApiError.mk "boom")) (.ok ())
  exact ⟨by decide, h.2.1 (by decide), h.1 "f7"⟩

/-- C9: each list operation is total at its public interface — on any
failure it resolves to the empty sequence instead of rejecting — and a
refresh cycle whose fan-out itself does not fail always publishes a
snapshot: `error` is cleared and loading ends, for every combination of
per-call outcomes, so the dashboard-level error branch is unreachable for
individual call failures. -/
theorem list_calls_degrade_to_empty (e : ApiError)
    (ra rc : Except ApiError (List ActiveConversation))
    (rf : Except ApiError (List Value))
    (rs : Except ApiError (List ScheduledInterview))
    (st : DashboardState) :
    getActiveConversations (.error e) = [] ∧
    getCompletedConversations (.error e) = [] ∧
    getScheduledInterviews (.error e) = [] ∧
    getAttentionFlags (.error e) = [] ∧
    (fetchData ra rc rf rs st).error = none ∧
    (fetchData ra rc rf rs st).isLoading = false := by
  simp [getActiveConversations, getCompletedConversations, getScheduledInterviews,
    getAttentionFlags, fetchData]

/-- C10: in a refresh cycle, structural validation is applied only to the
standalone attention-flags collection; the conversation lists (whose
records carry their raw, unvalidated nested `attention_flags`) and the
scheduled interviews are published exactly as returned. -/
theorem validation_only_on_flag_collection
    (a c : List ActiveConversation) (f : List Value) (s : List ScheduledInterview)
    (st : DashboardState) :
    (fetchData (.ok a) (.ok c) (.ok f) (.ok s) st).activeConversations = a ∧
    (fetchData (.ok a) (.ok c) (.ok f) (.ok s) st).completedConversations = c ∧
    (fetchData (.ok a) (.ok c) (.ok f) (.ok s) st).scheduledInterviews = s ∧
    (fetchData (.ok a) (.ok c) (.ok f) (.ok s) st).attentionFlags =
      f.filter isValidAttentionFlag := by
  simp [fetchData, catchToEmpty, validateAttentionFlags]

/-! ## SchedulingInterface (frontend/src/components/SchedulingInterface.tsx) -/

/-- One row of the bulk-upload response (`UploadResponse.results`). -/
structure UploadRow where
  status : String
  error : Option String
  interviewer : Option String

/-- The bulk-upload response body. -/
structure UploadResponse where
  conversations_created : Nat
  conversations_failed : Nat
  results : List UploadRow

/-- An axios rejection as seen by `handleSubmit`'s catch: the error
message, and `error.response?.data?.error` when the server supplied one. -/
structure AxiosFailure where
  message : String
  responseDataError : Option String

/-- `submissionStatus` values: 'idle' | 'submitting' | 'success' | 'error'. -/
inductive SubmissionStatus where
  | idle
  | submitting
  | success
  | error
deriving DecidableEq

/-- The React state of `SchedulingInterface`, plus traces: `alerts` records
`alert(...)` calls (the only place the created count is shown),
`networkCalls` counts POSTs issued, and `refreshCalls` counts
re-synchronisations triggered by this component (the source triggers
none: the dashboard's poll timer is independent of it). -/
structure SubmitState where
  file : Option String
  submissionStatus : SubmissionStatus
  errorMessage : String
  alerts : List String
  networkCalls : Nat
  refreshCalls : Nat

/-- The JS truthiness default `r.error || 'Unknown error'`: an absent or
empty `error` string becomes the generic placeholder. -/
def rowErrorText (r : UploadRow) : String :=
  match r.error with
  | some s => if s == "" then "Unknown error" else s
  | none => "Unknown error"

/-- The aggregate message thrown when `conversations_failed > 0`:
the failing rows' error texts joined with ", " behind a fixed prefix text. -/
def partialFailureMessage (results : List UploadRow) : String :=
  "Failed to initialize some conversations: " ++
    String.intercalate ", " ((results.filter (fun r => r.status == "failed")).map rowErrorText)

/-- `handleSubmit` (SchedulingInterface.tsx lines 66-115), for one submit
event whose (single) POST to /upload-csv would produce outcome `net`.
With no file selected, no network call is made. On a rejected call the
catch branch shows the server-supplied or transport message. On a 2xx
response with `conversations_failed > 0` the handler throws the aggregate
Error, which its own catch turns into the error message — the file is kept
and no alert is raised. Only on `conversations_failed = 0` is the file
cleared and the created count alerted; nothing in the handler triggers a
re-synchronisation. -/
def handleSubmit (net : Except AxiosFailure UploadResponse)
    (st : SubmitState) : SubmitState :=
  match st.file with
  | none => { st with errorMessage := "Please select a file to upload" }
  | some _ =>
    let st1 := { st with submissionStatus := .submitting
                         networkCalls := st.networkCalls + 1 }
    match net with
    | .error e =>
      { st1 with
        errorMessage := e.responseDataError.getD e.message
        submissionStatus := .error }
    | .ok data =>
      if data.conversations_failed > 0 then
        { st1 with
          errorMessage := partialFailureMessage data.results
          submissionStatus := .error }
      else
        { st1 with
          submissionStatus := .success
          file := none
          alerts := st1.alerts ++
            ["Successfully initialized " ++ toString data.conversations_created ++
              " conversations"] }

/-- Initial scheduling-interface state with a selected CSV file. -/
def demoSubmitState : SubmitState :=
  { file := some "batch.csv", submissionStatus := .idle, errorMessage := ""
    alerts := [], networkCalls := 0, refreshCalls := 0 }

/-- A 3-row response in which row 2 failed with error text "boom". -/
def demoPartialResponse : UploadResponse :=
  { conversations_created := 2, conversations_failed := 1
    results := [⟨"success", none, some "A"⟩, ⟨"failed", some "boom", some "B"⟩,
                ⟨"success", none, some "C"⟩] }

/-- C3 counterexample: on the 3-row partial-failure response the handler
raises the aggregate message and keeps the file, but it reports nothing
else to the operator: no alert is issued anywhere in this path, and the
error message shown is exactly the joined row errors, which does not
mention the created count (2) at all — so the created count is NOT
reported to the operator, contrary to the claim. -/
theorem cex_partial_failure_created_not_reported :
    (handleSubmit (.ok demoPartialResponse) demoSubmitState).alerts = [] ∧
    (handleSubmit (.ok demoPartialResponse) demoSubmitState).errorMessage =
      "Failed to initialize some conversations: boom" ∧
    ¬ (Nat.toDigits 10 demoPartialResponse.conversations_created).Sublist
        (handleSubmit (.ok demoPartialResponse) demoSubmitState).errorMessage.toList := by
  refine ⟨rfl, rfl, ?_⟩
  decide

/-- C3 (amended): for every submit with a file selected whose response has
`conversations_failed > 0`, the handler does not treat the call as a
transport failure: the surfaced message is exactly the aggregate join of
every failed row's error text (generic placeholder when absent), the
submission state becomes `error`, the file selection is not cleared, and
no success alert — the only channel that reports the created count — is
issued. -/
theorem partial_failure_reconciliation (st : SubmitState) (f : String)
    (data : UploadResponse) (hf : st.file = some f)
    (hfail : data.conversations_failed > 0) :
    (handleSubmit (.ok data) st).errorMessage = partialFailureMessage data.results ∧
    (handleSubmit (.ok data) st).submissionStatus = .error ∧
    (handleSubmit (.ok data) st).file = st.file ∧
    (handleSubmit (.ok data) st).alerts = st.alerts ∧
    (handleSubmit (.ok data) st).networkCalls = st.networkCalls + 1 := by
  simp [handleSubmit, hf, hfail]

/-- C3 witness: the amended behaviour on the concrete 3-row response. -/
theorem partial_failure_reconciliation_witness :
    (demoSubmitState.file = some "batch.csv" ∧
      demoPartialResponse.conversations_failed > 0) ∧
    (handleSubmit (.ok demoPartialResponse) demoSubmitState).errorMessage =
      partialFailureMessage demoPartialResponse.results ∧
    (handleSubmit (.ok demoPartialResponse) demoSubmitState).file =
      demoSubmitState.file := by
  have h := partial_failure_reconciliation demoSubmitState "batch.csv"
    demoPartialResponse rfl (by decide)
  exact ⟨⟨rfl, by decide⟩, h.1, h.2.2.1⟩

/-- A fully successful 3-row response. -/
def demoSuccessResponse : UploadResponse :=
  { conversations_created := 3, conversations_failed := 0
    results := [⟨"success", none, some "A"⟩, ⟨"success", none, some "B"⟩,
                ⟨"success", none, some "C"⟩] }

/-- C4 counterexample: on a fully successful response the handler clears
the file and alerts the created count, but triggers no re-synchronisation
at all (there is no refresh call anywhere in the component), so "exactly
once" fails. -/
theorem cex_full_success_no_resync :
    (handleSubmit (.ok demoSuccessResponse) demoSubmitState).file = none ∧
    (handleSubmit (.ok demoSuccessResponse) demoSubmitState).alerts =
      ["Successfully initialized 3 conversations"] ∧
    (handleSubmit (.ok demoSuccessResponse) demoSubmitState).refreshCalls ≠ 1 := by
  refine ⟨rfl, rfl, ?_⟩
  decide

/-- C4 (amended): for every submit with a file selected whose response has
`conversations_failed = 0`, the handler clears the file selection, informs
the operator of the created count via one alert, and triggers no
re-synchronisation of the monitored collections (their refresh is left to
the dashboard's independent 30-second poll). -/
theorem full_success_clears_and_reports (st : SubmitState) (f : String)
    (data : UploadResponse) (hf : st.file = some f)
    (hok : data.conversations_failed = 0) :
    (handleSubmit (.ok data) st).file = none ∧
    (handleSubmit (.ok data) st).submissionStatus = .success ∧
    (handleSubmit (.ok data) st).alerts = st.alerts ++
      ["Successfully initialized " ++ toString data.conversations_created ++
        " conversations"] ∧
    (handleSubmit (.ok data) st).refreshCalls = st.refreshCalls := by
  simp [handleSubmit, hf, hok]

/-- C4 witness: the amended behaviour on the concrete all-success response. -/
theorem full_success_clears_and_reports_witness :
    (demoSubmitState.file = some "batch.csv" ∧
      demoSuccessResponse.conversations_failed = 0) ∧
    (handleSubmit (.ok demoSuccessResponse) demoSubmitState).file = none ∧
    (handleSubmit (.ok demoSuccessResponse) demoSubmitState).refreshCalls =
      demoSubmitState.refreshCalls := by
  have h := full_success_clears_and_reports demoSubmitState "batch.csv"
    demoSuccessResponse rfl rfl
  exact ⟨⟨rfl, rfl⟩, h.1, h.2.2.2⟩

/-! ## Network request configuration

`api.ts` builds one shared axios instance (`axios.create`) with the
`x-api-key` header and `timeout: 30000`; every list/delete/resolve call
goes through it, and axios performs no automatic retry, so each operation
issues exactly one request. `handleSubmit` instead calls `axios.post`
directly with only the multipart and `x-api-key` headers — no `timeout`
option, and axios's default is to apply none. -/

structure RequestConfig where
  method : String
  path : String
  headers : List (String × String)
  timeoutMs : Option Nat
  withCredentials : Bool
deriving DecidableEq

/-- A request issued through the shared `api` axios instance
(api.ts lines 8-16): fixed headers, 30-second timeout. -/
def apiRequest (apiKey method path : String) : RequestConfig :=
  { method := method, path := path
    headers := [("Content-Type", "application/json"), ("x-api-key", apiKey)]
    timeoutMs := some 30000, withCredentials := false }

def getActiveConversationsRequests (apiKey : String) : List RequestConfig :=
  [apiRequest apiKey "GET" "/conversations/active"]

def getCompletedConversationsRequests (apiKey : String) : List RequestConfig :=
  [apiRequest apiKey "GET" "/conversations/completed"]

def getScheduledInterviewsRequests (apiKey : String) : List RequestConfig :=
  [apiRequest apiKey "GET" "/interviews/scheduled"]

def getAttentionFlagsRequests (apiKey : String) : List RequestConfig :=
  [apiRequest apiKey "GET" "/attention-flags"]

def deleteConversationRequests (apiKey conversationId : String) : List RequestConfig :=
  [apiRequest apiKey "DELETE" ("/conversations/" ++ conversationId)]

def resolveAttentionFlagRequests (apiKey flagId : String) : List RequestConfig :=
  [apiRequest apiKey "POST" ("/attention-flags/" ++ flagId ++ "/resolve")]

/-- The single POST issued by `handleSubmit` (SchedulingInterface.tsx
lines 79-84): a bare `axios.post` whose config sets only the two headers;
no timeout is configured (axios default: none). -/
def bulkUploadRequests (apiKey : String) : List RequestConfig :=
  [{ method := "POST", path := "/upload-csv"
     headers := [("Content-Type", "multipart/form-data"), ("x-api-key", apiKey)]
     timeoutMs := none, withCredentials := false }]

/-- The six requests going through the shared axios instance. -/
def coreApiRequests (apiKey conversationId flagId : String) : List RequestConfig :=
  getActiveConversationsRequests apiKey ++ getCompletedConversationsRequests apiKey ++
    getScheduledInterviewsRequests apiKey ++ getAttentionFlagsRequests apiKey ++
    deleteConversationRequests apiKey conversationId ++
    resolveAttentionFlagRequests apiKey flagId

/-- C8 counterexample: the bulk-upload submission, one of the requests the
claim quantifies over, carries the API-key header but no 30-second
timeout, so "every request carries a 30-second timeout" is false. -/
theorem cex_bulk_upload_no_timeout :
    (bulkUploadRequests "key").all
        (fun r => r.headers.contains ("x-api-key", "key") &&
          r.timeoutMs == some 30000) = false ∧
    (bulkUploadRequests "key").all
        (fun r => r.headers.contains ("x-api-key", "key")) = true := by
  decide

/-- C8 (amended): the four list calls, delete and resolve all go through
the shared axios instance, carrying the fixed API-key header and the
30-second timeout; the bulk-upload submission carries the same API-key
header but no timeout; and every operation issues exactly one request —
nothing is automatically retried. -/
theorem request_policy (apiKey conversationId flagId : String) :
    (coreApiRequests apiKey conversationId flagId).all
        (fun r => r.headers.contains ("x-api-key", apiKey) &&
          r.timeoutMs == some 30000) = true ∧
    (bulkUploadRequests apiKey).all
        (fun r => r.headers.contains ("x-api-key", apiKey) &&
          r.timeoutMs == none) = true ∧
    (getActiveConversationsRequests apiKey).length = 1 ∧
    (getCompletedConversationsRequests apiKey).length = 1 ∧
    (getScheduledInterviewsRequests apiKey).length = 1 ∧
    (getAttentionFlagsRequests apiKey).length = 1 ∧
    (deleteConversationRequests apiKey conversationId).length = 1 ∧
    (resolveAttentionFlagRequests apiKey flagId).length = 1 ∧
    (bulkUploadRequests apiKey).length = 1 := by
  refine ⟨?_, ?_, rfl, rfl, rfl, rfl, rfl, rfl, rfl⟩ <;>
    simp [coreApiRequests, getActiveConversationsRequests,
      getCompletedConversationsRequests, getScheduledInterviewsRequests,
      getAttentionFlagsRequests, deleteConversationRequests,
      resolveAttentionFlagRequests, bulkUploadRequests, apiRequest,
      List.contains, List.elem]
